import Mathlib

/-!
A shallow embedding of `src/main.js` of video-player-tauri.

The program is one immediately-invoked closure holding eight module variables
(`isDragging`, `offsetX`, `offsetY`, `isTauri`, `startPos`, `videoPlayer`,
`dragHandle`, `isClosing`) and a set of event handlers.  Every handler is
embedded as a function from the module state (plus the part of the host
environment it reads) to the new state and the list of observable effects it
performs, in program order.  Asynchronous functions are split at their `await`
points; the outcome of a boundary promise (resolved / rejected) is an input.
`dragHandle` is read only while the listeners are being registered, so it is a
value of the startup model rather than a field of the running state.

Numbers are `Int`: the coordinates handled by the program are integral pixel
positions, on which JavaScript subtraction is exact.
-/

namespace VideoPlayer

/-! ## Host values -/

/-- Outcome of a promise returned by a boundary call. -/
inductive Outcome (α : Type) where
  | resolved (value : α)
  | rejected (error : String)
  deriving DecidableEq, Repr

/-- JavaScript `s.startsWith(p)` on strings. -/
def startsWith (s p : String) : Bool :=
  p.toList.isPrefixOf s.toList

/-- Observable effects: calls that leave the closure, in program order. -/
inductive Effect where
  /-- The call `videoPlayer.pause()` -/
  | videoPause
  /-- The call `videoPlayer.removeAttribute('src')` -/
  | videoRemoveSrc
  /-- The call `videoPlayer.src = url` -/
  | videoSetSrc (url : String)
  /-- The call `videoPlayer.load()` -/
  | videoLoad
  /-- The call `videoPlayer.play()` -/
  | videoPlay
  /-- The call `URL.revokeObjectURL(url)` -/
  | revokeObjectURL (url : String)
  /-- The call `URL.createObjectURL(file)` -/
  | createObjectURL
  /-- The call `window.__TAURI__.window.convertFileSrc(path)` -/
  | convertFileSrc
  /-- The call `appWindow.close()` -/
  | shellClose
  /-- The call `window.close()` -/
  | windowClose
  /-- The call `appWindow.minimize()` -/
  | shellMinimize
  /-- The call `appWindow.isMaximized()` -/
  | shellIsMaximized
  /-- The call `appWindow.maximize()` -/
  | shellMaximize
  /-- The call `appWindow.unmaximize()` -/
  | shellUnmaximize
  /-- The call `document.documentElement.requestFullscreen()` -/
  | requestFullscreen
  /-- The call `document.exitFullscreen()` -/
  | exitFullscreen
  /-- The call `appWindow.position()` -/
  | shellPosition
  /-- The call `appWindow.setPosition({x, y})` -/
  | shellSetPosition (x y : Int)
  /-- The call `event.preventDefault()` -/
  | preventDefault
  /-- The call `console.error(...)`: a failure caught by the program and logged -/
  | consoleError (msg : String)
  /-- The call `console.log(...)` -/
  | consoleLog (msg : String)
  /-- A rejected promise or thrown exception no handler of the program
  receives: it leaves the operation uncaught. -/
  | unhandledRejection (error : String)
  /-- The call `setTimeout(() => { document.body.style.display = 'none' }, 300)` -/
  | scheduleHide
  /-- Entry into `cleanupBeforeClose` (a call marker, used to count runs). -/
  | enterCleanup
  /-- Entry into `loadVideo` (a call marker). -/
  | enterLoadVideo
  deriving DecidableEq, Repr

/-! ## Environment detection (`detectTauri`, lines 38-60) -/

/-- Result of the polling promise: how it settled and how many times
`setTimeout(check, 100)` was called. -/
structure Poll where
  settled : Outcome Bool
  timers : Nat
  deriving DecidableEq, Repr

/-- The closure `check` of `detectTauri` (lines 43-51), started with the
counter `attempts`.  `cap k` is the truthiness of
`window.__TAURI__?.window?.appWindow?.setPosition` at the evaluation of `check`
that finds `attempts = k`; each evaluation that neither resolves nor rejects
post-increments `attempts` and re-schedules itself. -/
def check (cap : Nat → Bool) (attempts : Nat) : Poll :=
  if cap attempts then
    ⟨.resolved true, 0⟩
  else if attempts > 30 then
    ⟨.rejected "Tauri APIs not available", 0⟩
  else
    let r := check cap (attempts + 1)
    ⟨r.settled, r.timers + 1⟩
termination_by 31 - attempts

/-- What `detectTauri` produces: the boolean it resolves to, the number of
100 ms timers it waited for, and what it logged. -/
structure Detection where
  result : Bool
  timers : Nat
  log : List String
  deriving DecidableEq, Repr

/-- The function `detectTauri` (lines 38-60).  `bridge` is the truthiness of
`window.__TAURI__` at line 40. -/
def detectTauri (bridge : Bool) (cap : Nat → Bool) : Detection :=
  if bridge then
    let p := check cap 0
    match p.settled with
    | .resolved _ => ⟨true, p.timers, []⟩
    | .rejected _ => ⟨false, p.timers, ["Running in browser mode"]⟩
  else
    ⟨false, 0, []⟩

/-! ## Module state -/

/-- A pair of pixel coordinates `{x, y}`. -/
structure Point where
  x : Int
  y : Int
  deriving DecidableEq, Repr

/-- Values the program gives to `document.body.style.transform`. -/
inductive Transform where
  /-- the empty string -/
  | identity
  /-- The value `translate(${x}px, ${y}px)` -/
  | translate (x y : Int)
  /-- The value `translateY(100%)` -/
  | slideOut
  deriving DecidableEq, Repr

/-- Values the program gives to `document.body.style.transition`. -/
inductive Transition where
  /-- The value `transform 0.2s ease` -/
  | ease
  /-- The value `none` -/
  | off
  deriving DecidableEq, Repr

/-- The style properties of `document.body` the program writes. -/
structure BodyStyle where
  transform : Transform
  transition : Transition
  cursor : String
  userSelect : String
  outline : String
  outlineOffset : String
  deriving DecidableEq, Repr

/-- The `<video>` element: its `src` content attribute and whether it is
paused. -/
structure Video where
  srcAttr : Option String
  paused : Bool
  deriving DecidableEq, Repr

/-- The `src` IDL attribute of a media element reflects the content attribute:
reading it gives the empty string when the attribute is absent, and the URL
otherwise (the URLs the program assigns are absolute, so resolving them against
the document leaves them as they are). -/
def Video.src (v : Video) : String :=
  match v.srcAttr with
  | none => ""
  | some url => url

/-- Where a suspended invocation of `closeWindow` waits. -/
inductive ClosePC where
  /-- at `await cleanupBeforeClose()` (line 291) -/
  | awaitCleanup
  /-- at `await window.__TAURI__.window.appWindow.close()` (line 294) -/
  | awaitShellClose
  deriving DecidableEq, Repr

/-- The module variables of the closure (lines 2-9), the DOM state the
handlers write, and the asynchronous work in flight. -/
structure App where
  isDragging : Bool
  offsetX : Int
  offsetY : Int
  isTauri : Bool
  startPos : Point
  /-- The variable `videoPlayer`: `none` is `null` -/
  video : Option Video
  isClosing : Bool
  body : BodyStyle
  /-- every `appWindow.position()` promise created so far, in creation order:
  `some p` while it is pending, `p` being the `(screenX, screenY)` of the
  pointer-down event its callbacks close over, and `none` once it has settled -/
  lookups : List (Option Point)
  /-- suspended invocations of `closeWindow` -/
  closing : List ClosePC
  deriving DecidableEq, Repr

/-- The state the closure starts in (lines 2-9) once startup has found the
video element and set the body style (lines 25-26), in the given mode. -/
def App.start (isTauri : Bool) (video : Video) : App where
  isDragging := false
  offsetX := 0
  offsetY := 0
  isTauri := isTauri
  startPos := ⟨0, 0⟩
  video := some video
  isClosing := false
  body := ⟨.identity, .ease, "", "", "", ""⟩
  lookups := []
  closing := []

/-! ## Promise plumbing -/

/-- A promise whose result is dropped with no handler attached: if it rejects,
nothing in the program receives the rejection. -/
def discarded {α : Type} : Outcome α → List Effect
  | .resolved _ => []
  | .rejected e => [.unhandledRejection e]

/-- The idiom `promise.catch(console.error)`. -/
def catchLogged {α : Type} : Outcome α → List Effect
  | .resolved _ => []
  | .rejected e => [.consoleError e]

/-! ## Cleanup and close (lines 286-314) -/

/-- The function `cleanupBeforeClose` (lines 305-314).  The function has no `await`, so it
runs to completion when called. -/
def cleanupBeforeClose (s : App) : App × List Effect :=
  match s.video with
  | none => (s, [.enterCleanup])
  | some v =>
    -- videoPlayer.pause(); videoPlayer.removeAttribute('src');
    let v1 : Video := { v with paused := true }
    let v2 : Video := { v1 with srcAttr := none }
    let s1 : App := { s with video := some v2 }
    -- if (!isTauri && videoPlayer.src.startsWith('blob:'))
    if !s.isTauri && startsWith v2.src "blob:" then
      (s1, [.enterCleanup, .videoPause, .videoRemoveSrc, .revokeObjectURL v2.src])
    else
      (s1, [.enterCleanup, .videoPause, .videoRemoveSrc])

/-- The function `closeWindow` (lines 286-302) from its call up to its first suspension at
`await cleanupBeforeClose()`: the callee has already run when the caller
suspends. -/
def closeWindow (s : App) : App × List Effect :=
  if s.isClosing then (s, [])
  else
    let s1 : App := { s with isClosing := true }
    let r := cleanupBeforeClose s1
    ({ r.1 with closing := r.1.closing ++ [.awaitCleanup] }, r.2)

/-- Resumption of the `i`-th suspended `closeWindow`.  After the cleanup await
(whose promise always fulfils, `cleanupBeforeClose` having returned normally)
it requests the close (lines 293-297); after the shell-close await it either
finishes or, when the outcome `o` is a rejection, runs the `catch` block
(lines 298-301). -/
def closeWindowResume (s : App) (i : Nat) (o : Outcome Unit) : App × List Effect :=
  match s.closing[i]? with
  | none => (s, [])
  | some .awaitCleanup =>
    if s.isTauri then
      ({ s with closing := s.closing.set i .awaitShellClose }, [.shellClose])
    else
      ({ s with closing := s.closing.eraseIdx i }, [.windowClose])
  | some .awaitShellClose =>
    let s1 : App := { s with closing := s.closing.eraseIdx i }
    match o with
    | .resolved _ => (s1, [])
    | .rejected e => ({ s1 with isClosing := false }, [.consoleError ("Close error: " ++ e)])

/-- The `tauri://close-requested` listener (lines 244-248): the promise of
`appWindow.close()` is neither awaited nor given a handler. -/
def onCloseRequested (s : App) (close : Outcome Unit) : App × List Effect :=
  let r := cleanupBeforeClose s
  (r.1, [.preventDefault] ++ r.2 ++ [.shellClose] ++ discarded close)

/-! ## Window controls (lines 253-283) -/

/-- The function `minimizeWindow` (lines 254-263). -/
def minimizeWindow (s : App) (minimize : Outcome Unit) : App × List Effect :=
  if s.isTauri then
    (s, [.shellMinimize] ++ catchLogged minimize)
  else
    ({ s with body := { s.body with transform := .slideOut } }, [.scheduleHide])

/-- The function `toggleMaximize` (lines 266-283).  `isMaximized` is awaited inside the
`try`; the promise of `unmaximize()` / `maximize()` is an expression statement
that is not awaited, so the `try` does not see its rejection.
`fullscreenElement` is the truthiness of `document.fullscreenElement`. -/
def toggleMaximize (s : App) (isMaximized : Outcome Bool) (maximize unmaximize : Outcome Unit)
    (fullscreenElement : Bool) (requestFs exitFs : Outcome Unit) : List Effect :=
  if s.isTauri then
    match isMaximized with
    | .rejected e => [.shellIsMaximized, .consoleError ("Maximize error: " ++ e)]
    | .resolved m =>
      if m then [.shellIsMaximized, .shellUnmaximize] ++ discarded unmaximize
      else [.shellIsMaximized, .shellMaximize] ++ discarded maximize
  else
    if !fullscreenElement then [.requestFullscreen] ++ catchLogged requestFs
    else [.exitFullscreen] ++ catchLogged exitFs

/-- The play button handler `() => videoPlayer?.play()` (line 238). -/
def onPlayClick (s : App) (play : Outcome Unit) : List Effect :=
  match s.video with
  | none => []
  | some _ => [.videoPlay] ++ discarded play

/-! ## Media loading and file drop (lines 114-167) -/

/-- The function `loadVideo` (lines 114-130), run through its awaits.  `convert` is the
outcome of the bridge's path conversion, `blobUrl` the URL that
`URL.createObjectURL` returns, `play` the outcome of `videoPlayer.play()`.
Everything sits inside the `try`, so every failure is logged. -/
def loadVideo (s : App) (convert : Outcome String) (blobUrl : String)
    (play : Outcome Unit) : App × List Effect :=
  let source : Outcome String := if s.isTauri then convert else .resolved blobUrl
  let asked : Effect := if s.isTauri then .convertFileSrc else .createObjectURL
  match source with
  | .rejected e => (s, [.enterLoadVideo, asked, .consoleError ("Error loading video: " ++ e)])
  | .resolved url =>
    match s.video with
    | none =>
      (s, [.enterLoadVideo, asked, .consoleError "Error loading video: TypeError"])
    | some v =>
      match play with
      | .resolved _ =>
        ({ s with video := some { v with srcAttr := some url, paused := false } },
          [.enterLoadVideo, asked, .videoSetSrc url, .videoLoad, .videoPlay])
      | .rejected e =>
        ({ s with video := some { v with srcAttr := some url } },
          [.enterLoadVideo, asked, .videoSetSrc url, .videoLoad, .videoPlay,
            .consoleError ("Error loading video: " ++ e)])

/-- An entry of `e.dataTransfer.files`: the program reads only its `type`. -/
structure DroppedFile where
  type : String
  deriving DecidableEq, Repr

/-- The three `drop` listeners of `setupFileDrop` in registration order
(lines 136-141, 150-154, 156-166): default prevented, outline cleared, then the
first file examined. -/
def onDrop (s : App) (files : List DroppedFile) (convert : Outcome String) (blobUrl : String)
    (play : Outcome Unit) : App × List Effect :=
  let s1 : App := { s with body := { s.body with outline := "none" } }
  match files with
  | [] => (s1, [.preventDefault])
  | file :: _ =>
    if startsWith file.type "video/" then
      let r := loadVideo s1 convert blobUrl play
      (r.1, [.preventDefault] ++ r.2)
    else
      (s1, [.preventDefault, .consoleLog "Dropped file is not a video"])

/-! ## Drag behaviour (lines 176-224) -/

/-- The fields of a mouse event the handlers read. -/
structure MouseEvent where
  button : Int
  clientX : Int
  clientY : Int
  screenX : Int
  screenY : Int
  deriving DecidableEq, Repr

/-- The `mousedown` listener (lines 176-195).  In native mode the position
lookup is started and its callbacks run later (`onPositionSettled`). -/
def onMouseDown (s : App) (e : MouseEvent) : App × List Effect :=
  if e.button ≠ 0 then (s, [])
  else
    let s1 : App := { s with isDragging := true, startPos := ⟨e.clientX, e.clientY⟩ }
    if s.isTauri then
      ({ s1 with lookups := s1.lookups ++ [some ⟨e.screenX, e.screenY⟩] }, [.shellPosition])
    else
      ({ s1 with
          offsetX := e.clientX
          offsetY := e.clientY
          body := { s1.body with cursor := "grabbing", userSelect := "none" } }, [])

/-- Settlement of the `i`-th `appWindow.position()` promise, if it is still
pending: the `.then` callback (lines 184-187) or `.catch(console.error)`
(line 188).  A promise settles once. -/
def onPositionSettled (s : App) (i : Nat) (o : Outcome Point) : App × List Effect :=
  match s.lookups[i]? with
  | some (some e) =>
    let s1 : App := { s with lookups := s.lookups.set i none }
    match o with
    | .resolved pos => ({ s1 with offsetX := e.x - pos.x, offsetY := e.y - pos.y }, [])
    | .rejected err => (s1, [.consoleError err])
  | _ => (s, [])

/-- The `mousemove` listener (lines 197-211).  `setPosition` is the truthiness
of `window.__TAURI__?.window?.appWindow?.setPosition` when the event is
handled; `request` is the outcome of the promise returned by
`appWindow.setPosition(...)`, to which `.catch(console.error)` is attached
(line 204): a rejection is logged, and the trace lists the log entry right
after the request it belongs to. -/
def onMouseMove (s : App) (e : MouseEvent) (setPosition : Bool) (request : Outcome Unit) :
    App × List Effect :=
  if !s.isDragging then (s, [])
  else if s.isTauri && setPosition then
    (s, [.shellSetPosition (e.screenX - s.offsetX) (e.screenY - s.offsetY)] ++
      catchLogged request)
  else
    let moveX := e.clientX - s.startPos.x
    let moveY := e.clientY - s.startPos.y
    ({ s with body := { s.body with transform := .translate moveX moveY, transition := .off } }, [])

/-- The `mouseup` listener (lines 213-224). -/
def onMouseUp (s : App) : App × List Effect :=
  if s.isDragging then
    let s1 : App := { s with isDragging := false }
    if !s.isTauri then
      ({ s1 with body := { s1.body with
          cursor := "", userSelect := "", transform := .identity, transition := .ease } }, [])
    else (s1, [])
  else (s, [])

/-! ## The event loop -/

/-- What the event loop can deliver to the handlers above. -/
inductive Event where
  /-- click on the close button: `closeWindow()` is called -/
  | closeClick
  /-- the promise awaited by the `i`-th suspended `closeWindow` settles -/
  | closeResume (i : Nat) (o : Outcome Unit)
  | mouseDown (e : MouseEvent)
  /-- The event `mousemove`, with the availability of the bridge's `setPosition`
  and the outcome of the position-set request the handler may issue -/
  | mouseMove (e : MouseEvent) (setPosition : Bool) (request : Outcome Unit)
  | mouseUp
  /-- the `i`-th position lookup settles -/
  | positionSettled (i : Nat) (o : Outcome Point)
  deriving DecidableEq, Repr

/-- One turn of the event loop. -/
def step (s : App) : Event → App × List Effect
  | .closeClick => closeWindow s
  | .closeResume i o => closeWindowResume s i o
  | .mouseDown e => onMouseDown s e
  | .mouseMove e c o => onMouseMove s e c o
  | .mouseUp => onMouseUp s
  | .positionSettled i o => onPositionSettled s i o

/-- A sequence of turns, with the effects in order. -/
def run (s : App) : List Event → App × List Effect
  | [] => (s, [])
  | ev :: evs =>
    let r1 := step s ev
    let r2 := run r1.1 evs
    (r2.1, r1.2 ++ r2.2)

/-- Whether the event settles the `n`-th position lookup. -/
def Event.settles (n : Nat) : Event → Bool
  | .positionSettled i _ => i == n
  | _ => false

/-- Whether the event is a position lookup that resolves. -/
def Event.resolves : Event → Bool
  | .positionSettled _ (.resolved _) => true
  | _ => false

/-- The lookup started by the pointer-down `e`, handled in state `s`, settles
with `o` after the events `mid` have been handled in between.  The promise
created by that pointer-down is the one numbered `s.lookups.length`. -/
def settleAfter (s : App) (e : MouseEvent) (mid : List Event) (o : Outcome Point) :
    App × List Effect :=
  onPositionSettled (run (onMouseDown s e).1 mid).1 s.lookups.length o

/-- Number of times `cleanupBeforeClose` was entered in a trace. -/
def cleanupRuns (fx : List Effect) : Nat := fx.count .enterCleanup

/-- Number of `URL.revokeObjectURL` calls in a trace. -/
def revokeCalls (fx : List Effect) : Nat :=
  (fx.filter fun f => match f with
    | .revokeObjectURL _ => true
    | _ => false).length

/-- Whether a rejection or exception escaped uncaught in a trace. -/
def escapes (fx : List Effect) : Bool :=
  fx.any fun f => match f with
    | .unhandledRejection _ => true
    | _ => false

/-- At most one `closeWindow` is suspended, and only while `isClosing` is set. -/
def CloseInv (s : App) : Prop :=
  s.closing = [] ∨ (s.isClosing = true ∧ ∃ pc, s.closing = [pc])

/-! ## Startup (lines 12-35, 170-176) -/

/-- The JavaScript values `dragHandle` and its properties can be. -/
inductive JSValue where
  | null
  | undefined
  /-- an `Element` node -/
  | element (id : String)
  /-- an `HTMLCollection`; `ids` are the `id`s of its elements, which are its
  named properties -/
  | collection (ids : List String)
  /-- a `CSSStyleDeclaration` -/
  | styleDecl
  /-- a callable -/
  | function
  deriving DecidableEq, Repr

/-- JavaScript truthiness: every object is truthy, an empty collection
included. -/
def JSValue.truthy : JSValue → Bool
  | .null => false
  | .undefined => false
  | _ => true

/-- Property read `v[name]` for the two names `setupDragBehavior` reads,
`style` and `addEventListener`.  An element has both; an `HTMLCollection` has
neither as a built-in, and yields the member whose `id` is `name` if there is
one, else `undefined`. -/
def JSValue.get (v : JSValue) (name : String) : Except String JSValue :=
  match v with
  | .null => .error "TypeError: cannot read properties of null"
  | .undefined => .error "TypeError: cannot read properties of undefined"
  | .element _ =>
    if name = "style" then .ok .styleDecl
    else if name = "addEventListener" then .ok .function
    else .ok .undefined
  | .collection ids => if name ∈ ids then .ok (.element name) else .ok .undefined
  | .styleDecl => .ok .undefined
  | .function => .ok .undefined

/-- The function `setupDragBehavior` up to the registration of its listeners (lines
170-176 and the two `document.addEventListener` calls): the listeners it
registered, or the exception it threw. -/
def setupDragBehavior (dragHandle : JSValue) : Except String (List String) :=
  if !dragHandle.truthy then .ok []
  else
    -- dragHandle.style.cursor = 'move'; dragHandle.style.userSelect = 'none';
    match dragHandle.get "style" with
    | .error e => .error e
    | .ok style =>
      if !style.truthy then .error "TypeError: cannot set properties of undefined"
      else
        -- dragHandle.addEventListener('mousedown', ...)
        match dragHandle.get "addEventListener" with
        | .error e => .error e
        | .ok .function => .ok ["mousedown", "mousemove", "mouseup"]
        | .ok _ => .error "TypeError: dragHandle.addEventListener is not a function"

/-- The part of the document startup reads. -/
structure Document where
  /-- Whether `document.getElementById('videoPlayer')` finds an element. -/
  hasVideoPlayer : Bool
  /-- the `id`s of the elements of class `controls`, in tree order -/
  controls : List String
  deriving DecidableEq, Repr

/-- The call `document.getElementsByClassName(cls)`: always a collection object. -/
def Document.getElementsByClassName (doc : Document) : JSValue :=
  .collection doc.controls

/-- How the `DOMContentLoaded` handler ended. -/
structure Startup where
  /-- the setup functions that returned normally, in order -/
  completed : List String
  /-- the event listeners registered, in order -/
  listeners : List String
  /-- the exception that ended the handler, if any -/
  raised : Option String
  deriving DecidableEq, Repr

/-- The subscription made by `setupWindowControls` (lines 241-250); `listen` is
the truthiness of `window.__TAURI__?.window?.appWindow?.listen`.  The button
handlers it installs are property assignments on elements found by id. -/
def setupWindowControls (isTauri listen : Bool) : List String :=
  if isTauri && listen then ["tauri://close-requested"] else []

/-- The `DOMContentLoaded` handler (lines 12-35).  `detected` is the value
`detectTauri` resolved to. -/
def onDOMContentLoaded (doc : Document) (detected listen : Bool) : Startup :=
  if !doc.hasVideoPlayer then ⟨[], [], none⟩
  else
    let dragHandle := doc.getElementsByClassName
    if !dragHandle.truthy then ⟨[], [], none⟩
    else
      let subscribed := setupWindowControls detected listen
      match setupDragBehavior dragHandle with
      | .error e => ⟨["addOpenFileButton", "setupWindowControls"], subscribed, some e⟩
      | .ok ls =>
        ⟨["addOpenFileButton", "setupWindowControls", "setupDragBehavior", "setupFileDrop"],
          subscribed ++ ls ++ ["dragenter", "dragover", "dragleave", "drop"], none⟩

/-! ## Environment detection: proofs -/

theorem check_settled_ok (cap : Nat → Bool) (n a : Nat) (hn : n = 31 - a) (k : Nat)
    (hak : a ≤ k) (hk : k < 32) (hc : cap k = true) :
    (check cap a).settled = .resolved true := by
  induction n generalizing a with
  | zero =>
    have : a = k ∨ a > 30 := by omega
    unfold check
    by_cases h : cap a = true
    · simp [h]
    · have hka : k = a := by
        rcases this with h1 | h1
        · exact h1.symm
        · omega
      subst hka
      exact absurd hc h
  | succ m ih =>
    unfold check
    by_cases h : cap a = true
    · simp [h]
    · have hne : a ≠ k := fun e => h (e ▸ hc)
      have h30 : ¬ a > 30 := by omega
      simp only [h, h30, if_false]
      exact ih (a + 1) (by omega) (by omega)

theorem check_exhausted (cap : Nat → Bool) (n a : Nat) (hn : n = 31 - a) (ha : a ≤ 31)
    (hc : ∀ k, a ≤ k → k < 32 → cap k = false) :
    (check cap a).settled = .rejected "Tauri APIs not available" ∧
      (check cap a).timers = 31 - a := by
  induction n generalizing a with
  | zero =>
    have h31 : a = 31 := by omega
    subst h31
    unfold check
    simp [hc 31 (le_refl _) (by omega)]
  | succ m ih =>
    have h30 : ¬ a > 30 := by omega
    have hca : cap a = false := hc a (le_refl _) (by omega)
    have := ih (a + 1) (by omega) (by omega) (fun k h1 h2 => hc k (by omega) h2)
    unfold check
    simp only [hca, h30, if_false, Bool.false_eq_true]
    refine ⟨this.1, ?_⟩
    rw [this.2]; omega


/-! ## Environment detection: the claim -/

/-- C6: `detectTauri` always resolves to a boolean.  It resolves `false` with
no polling when the bridge object is absent at the first check; `false` after
exactly 31 timers (32 checks: the initial one and 31 retries) when the bridge
is present and the capability is unavailable at every one of those checks; and
`true` when the capability is available at some check among the 32. -/
theorem detectTauri_resolves (bridge : Bool) (cap : Nat → Bool) :
    (bridge = false → detectTauri bridge cap = ⟨false, 0, []⟩) ∧
    (bridge = true → (∀ k, k < 32 → cap k = false) →
      (detectTauri bridge cap).result = false ∧ (detectTauri bridge cap).timers = 31) ∧
    (bridge = true → (∃ k, k < 32 ∧ cap k = true) → (detectTauri bridge cap).result = true) := by
  refine ⟨?_, ?_, ?_⟩
  · intro hb
    simp [detectTauri, hb]
  · intro hb hc
    have h := check_exhausted cap 31 0 rfl (by omega) (fun k _ hk => hc k hk)
    simp [detectTauri, hb, h.1, h.2]
  · rintro hb ⟨k, hk, hc⟩
    have h := check_settled_ok cap 31 0 rfl k (Nat.zero_le k) hk hc
    simp [detectTauri, hb, h]

/-- C6 at concrete bridges: absent; present but never ready; ready at the
second check. -/
theorem detectTauri_resolves_witness :
    detectTauri false (fun _ => true) = ⟨false, 0, []⟩ ∧
    ((detectTauri true (fun _ => false)).result = false ∧
      (detectTauri true (fun _ => false)).timers = 31) ∧
    (detectTauri true (fun k => k == 1)).result = true :=
  ⟨(detectTauri_resolves false (fun _ => true)).1 rfl,
   (detectTauri_resolves true (fun _ => false)).2.1 rfl (fun _ _ => rfl),
   (detectTauri_resolves true (fun k => k == 1)).2.2 rfl ⟨1, by decide, rfl⟩⟩

/-! ## Cleanup -/

theorem startsWith_empty_blob : startsWith "" "blob:" = false := by decide

theorem cleanupBeforeClose_effects (s : App) :
    (cleanupBeforeClose s).2 = [.enterCleanup] ∨
    (cleanupBeforeClose s).2 = [.enterCleanup, .videoPause, .videoRemoveSrc] := by
  unfold cleanupBeforeClose
  cases hv : s.video with
  | none => simp
  | some v => simp [Video.src, startsWith_empty_blob]

theorem cleanupBeforeClose_frame (s : App) :
    (cleanupBeforeClose s).1.isClosing = s.isClosing ∧
    (cleanupBeforeClose s).1.closing = s.closing ∧
    (cleanupBeforeClose s).1.isTauri = s.isTauri := by
  unfold cleanupBeforeClose
  cases hv : s.video with
  | none => simp
  | some v => simp [Video.src, startsWith_empty_blob]

theorem cleanupBeforeClose_runs (s : App) : cleanupRuns (cleanupBeforeClose s).2 = 1 := by
  rcases cleanupBeforeClose_effects s with h | h <;> rw [h] <;> decide

/-- C1: `cleanupBeforeClose` detaches the `src` attribute before it reads
`videoPlayer.src`, so the test `startsWith('blob:')` sees the empty string and
`URL.revokeObjectURL` is called zero times in every state; in particular zero
times, not once, in fallback mode with a `blob:` source held before cleanup. -/
theorem cleanupBeforeClose_never_revokes :
    (∀ s : App, revokeCalls (cleanupBeforeClose s).2 = 0) ∧
    startsWith (Video.src ⟨some "blob:http://localhost/3f1c", false⟩) "blob:" = true ∧
    (cleanupBeforeClose (App.start false ⟨some "blob:http://localhost/3f1c", false⟩)).2 =
      [.enterCleanup, .videoPause, .videoRemoveSrc] := by
  refine ⟨?_, by decide, by decide⟩
  intro s
  rcases cleanupBeforeClose_effects s with h | h <;> rw [h] <;> decide

/-! ## Close: re-entrancy -/

theorem cleanupRuns_append (a b : List Effect) :
    cleanupRuns (a ++ b) = cleanupRuns a + cleanupRuns b := by
  simp [cleanupRuns, List.count_append]

theorem run_append (s : App) (a b : List Event) :
    run s (a ++ b) = ((run (run s a).1 b).1, (run s a).2 ++ (run (run s a).1 b).2) := by
  induction a generalizing s with
  | nil => simp [run]
  | cons ev evs ih => simp [run, ih, List.append_assoc]

theorem closeWindow_closing (s : App) (h : s.isClosing = true) : closeWindow s = (s, []) := by
  simp [closeWindow, h]

theorem closeWindow_fresh (s : App) (h : s.isClosing = false) :
    (closeWindow s).1.isClosing = true ∧
    (closeWindow s).1.closing = s.closing ++ [.awaitCleanup] ∧
    (closeWindow s).1.isTauri = s.isTauri ∧
    cleanupRuns (closeWindow s).2 = 1 := by
  have hf := cleanupBeforeClose_frame { s with isClosing := true }
  have hr := cleanupBeforeClose_runs { s with isClosing := true }
  simp [closeWindow, h, hf.1, hf.2.1, hf.2.2, hr]

theorem step_other_cleanupRuns (s : App) (ev : Event) (h : ev ≠ .closeClick) :
    cleanupRuns (step s ev).2 = 0 := by
  cases ev with
  | closeClick => exact absurd rfl h
  | closeResume i o =>
    simp only [step, closeWindowResume]
    cases hi : s.closing[i]? with
    | none => simp [cleanupRuns]
    | some pc =>
      cases pc with
      | awaitCleanup => by_cases ht : s.isTauri = true <;> simp [ht, cleanupRuns]
      | awaitShellClose => cases o <;> simp [cleanupRuns]
  | mouseDown e =>
    simp only [step, onMouseDown]
    by_cases hb : e.button = 0 <;> by_cases ht : s.isTauri = true <;> simp [hb, ht, cleanupRuns]
  | mouseMove e c o =>
    simp only [step, onMouseMove]
    by_cases hd : s.isDragging = true <;> by_cases ht : (s.isTauri && c) = true <;>
      cases o <;> simp [hd, ht, cleanupRuns, catchLogged]
  | mouseUp =>
    simp only [step, onMouseUp]
    by_cases hd : s.isDragging = true <;> by_cases ht : s.isTauri = true <;>
      simp [hd, ht, cleanupRuns]
  | positionSettled i o =>
    simp only [step, onPositionSettled]
    cases hi : s.lookups[i]? with
    | none => simp [cleanupRuns]
    | some pt => cases pt <;> cases o <;> simp [cleanupRuns]

theorem run_other_cleanupRuns (s : App) (evs : List Event) (h : Event.closeClick ∉ evs) :
    cleanupRuns (run s evs).2 = 0 := by
  induction evs generalizing s with
  | nil => simp [run, cleanupRuns]
  | cons ev evs ih =>
    have h1 : ev ≠ .closeClick := fun e => h (e ▸ List.mem_cons_self _ _)
    have h2 : Event.closeClick ∉ evs := fun m => h (List.mem_cons_of_mem _ m)
    simp [run, cleanupRuns_append, step_other_cleanupRuns s ev h1, ih _ h2]

theorem step_closeInv (s : App) (ev : Event) (h : CloseInv s) : CloseInv (step s ev).1 := by
  cases ev with
  | closeClick =>
    simp only [step]
    by_cases hc : s.isClosing = true
    · rw [closeWindow_closing s hc]; exact h
    · have hc' : s.isClosing = false := by simpa using hc
      have hf := closeWindow_fresh s hc'
      rcases h with h | ⟨h, _⟩
      · exact Or.inr ⟨hf.1, .awaitCleanup, by rw [hf.2.1, h]; rfl⟩
      · exact absurd h hc
  | closeResume i o =>
    simp only [step, closeWindowResume]
    rcases h with h | ⟨hcl, pc, hpc⟩
    · simp [h, CloseInv]
    · cases i with
      | zero =>
        cases pc with
        | awaitCleanup =>
          by_cases ht : s.isTauri = true
          · simp [hpc, ht, CloseInv, hcl]
          · simp [hpc, ht, CloseInv]
        | awaitShellClose => cases o <;> simp [hpc, CloseInv]
      | succ j => simp [hpc, CloseInv, hcl]
  | mouseDown e =>
    simp only [step, onMouseDown]
    by_cases hb : e.button = 0 <;> by_cases ht : s.isTauri = true <;>
      simpa [hb, ht, CloseInv] using h
  | mouseMove e c o =>
    simp only [step, onMouseMove]
    by_cases hd : s.isDragging = true <;> by_cases ht : (s.isTauri && c) = true <;>
      simpa [hd, ht, CloseInv] using h
  | mouseUp =>
    simp only [step, onMouseUp]
    by_cases hd : s.isDragging = true <;> by_cases ht : s.isTauri = true <;>
      simpa [hd, ht, CloseInv] using h
  | positionSettled i o =>
    simp only [step, onPositionSettled]
    cases hi : s.lookups[i]? with
    | none => simpa [CloseInv] using h
    | some pt => cases pt <;> cases o <;> simpa [CloseInv] using h

theorem run_closeInv (s : App) (evs : List Event) (h : CloseInv s) : CloseInv (run s evs).1 := by
  induction evs generalizing s with
  | nil => simpa [run] using h
  | cons ev evs ih => simpa [run] using ih _ (step_closeInv s ev h)

/-- C2: from a state with no close in progress, in either mode, let
`closeWindow` be invoked and then any events other than a close click be
handled.  If the first invocation is still suspended (in cleanup or in the
shell close request), a second invocation changes nothing and has no effect,
and whatever non-click events follow, `cleanupBeforeClose` has run exactly
once. -/
theorem closeWindow_reentry_is_noop (s : App) (pre post : List Event)
    (hidle : s.isClosing = false) (hnone : s.closing = [])
    (hpre : Event.closeClick ∉ pre) (hpost : Event.closeClick ∉ post)
    (hflight : (run s (.closeClick :: pre)).1.closing ≠ []) :
    step (run s (.closeClick :: pre)).1 .closeClick = ((run s (.closeClick :: pre)).1, []) ∧
    cleanupRuns (run s ((.closeClick :: pre) ++ (.closeClick :: post))).2 = 1 := by
  have hinv : CloseInv (run s (.closeClick :: pre)).1 := run_closeInv s _ (Or.inl hnone)
  have hset : (run s (.closeClick :: pre)).1.isClosing = true := by
    rcases hinv with h | ⟨h, _⟩
    · exact absurd h hflight
    · exact h
  have hnoop : step (run s (.closeClick :: pre)).1 .closeClick =
      ((run s (.closeClick :: pre)).1, []) := closeWindow_closing _ hset
  refine ⟨hnoop, ?_⟩
  have hfirst : cleanupRuns (run s (.closeClick :: pre)).2 = 1 := by
    have h1 := (closeWindow_fresh s hidle).2.2.2
    have h2 := run_other_cleanupRuns (step s .closeClick).1 pre hpre
    simp only [run, cleanupRuns_append, h2]
    simpa [step] using h1
  have hrest : cleanupRuns (run (run s (.closeClick :: pre)).1 (.closeClick :: post)).2 = 0 := by
    have h3 := run_other_cleanupRuns (run s (.closeClick :: pre)).1 post hpost
    have h4 : run (run s (.closeClick :: pre)).1 (.closeClick :: post) =
        ((run (run s (.closeClick :: pre)).1 post).1,
          [] ++ (run (run s (.closeClick :: pre)).1 post).2) := by
      conv_lhs => rw [run]
      rw [hnoop]
    rw [h4]
    simpa using h3
  rw [run_append]
  simp only [cleanupRuns_append, hfirst, hrest]

/-- C2 at concrete schedules: the second click arrives while the first
invocation waits for cleanup (fallback mode) and while it waits for the shell
close (native mode, which then fails). -/
theorem closeWindow_reentry_is_noop_witness :
    (step (run (App.start false ⟨some "blob:http://localhost/3f1c", false⟩) [.closeClick]).1
        .closeClick =
      ((run (App.start false ⟨some "blob:http://localhost/3f1c", false⟩) [.closeClick]).1, []) ∧
     cleanupRuns (run (App.start false ⟨some "blob:http://localhost/3f1c", false⟩)
        ([.closeClick] ++ [.closeClick, .closeResume 0 (.resolved ())])).2 = 1) ∧
    (step (run (App.start true ⟨none, true⟩) [.closeClick, .closeResume 0 (.resolved ())]).1
        .closeClick =
      ((run (App.start true ⟨none, true⟩) [.closeClick, .closeResume 0 (.resolved ())]).1, []) ∧
     cleanupRuns (run (App.start true ⟨none, true⟩)
        ([.closeClick, .closeResume 0 (.resolved ())] ++
          [.closeClick, .closeResume 0 (.rejected "denied")])).2 = 1) :=
  ⟨closeWindow_reentry_is_noop (App.start false ⟨some "blob:http://localhost/3f1c", false⟩)
      [] [.closeResume 0 (.resolved ())] rfl rfl (by decide) (by decide) (by decide),
   closeWindow_reentry_is_noop (App.start true ⟨none, true⟩)
      [.closeResume 0 (.resolved ())] [.closeResume 0 (.rejected "denied")]
      rfl rfl (by decide) (by decide) (by decide)⟩

/-! ## Close: failure and retry -/

/-- C3, as stated, fails: in native mode a failed shell close resets the flag,
and the retry runs `cleanupBeforeClose` a second time before it requests the
shell close again. -/
theorem closeWindow_retry_reruns_cleanup :
    (run (App.start true ⟨some "asset://localhost/movie.mp4", false⟩)
      [.closeClick, .closeResume 0 (.resolved ()), .closeResume 0 (.rejected "denied")]).1.isClosing
        = false ∧
    (run (App.start true ⟨some "asset://localhost/movie.mp4", false⟩)
      [.closeClick, .closeResume 0 (.resolved ()), .closeResume 0 (.rejected "denied"),
       .closeClick, .closeResume 0 (.resolved ())]).2 =
      [.enterCleanup, .videoPause, .videoRemoveSrc, .shellClose,
       .consoleError "Close error: denied",
       .enterCleanup, .videoPause, .videoRemoveSrc, .shellClose] ∧
    cleanupRuns (run (App.start true ⟨some "asset://localhost/movie.mp4", false⟩)
      [.closeClick, .closeResume 0 (.resolved ()), .closeResume 0 (.rejected "denied"),
       .closeClick, .closeResume 0 (.resolved ())]).2 ≠ 1 := by
  decide

/-- C3 amended: in native mode, from a state with no close in progress, when
the shell close request of `closeWindow` fails the closing flag is reset to
false and no invocation stays suspended; a later `closeWindow` is then not a
no-op: it sets the flag, runs `cleanupBeforeClose` again (once), and on
resumption requests the shell close again. -/
theorem closeWindow_failure_allows_retry (s : App) (err : String)
    (hmode : s.isTauri = true) (hidle : s.isClosing = false) (hnone : s.closing = []) :
    (run s [.closeClick, .closeResume 0 (.resolved ()),
        .closeResume 0 (.rejected err)]).1.isClosing = false ∧
    (run s [.closeClick, .closeResume 0 (.resolved ()),
        .closeResume 0 (.rejected err)]).1.closing = [] ∧
    (closeWindow (run s [.closeClick, .closeResume 0 (.resolved ()),
        .closeResume 0 (.rejected err)]).1).1.isClosing = true ∧
    cleanupRuns (closeWindow (run s [.closeClick, .closeResume 0 (.resolved ()),
        .closeResume 0 (.rejected err)]).1).2 = 1 ∧
    (closeWindowResume (closeWindow (run s [.closeClick, .closeResume 0 (.resolved ()),
        .closeResume 0 (.rejected err)]).1).1 0 (.resolved ())).2 = [.shellClose] := by
  have hf := closeWindow_fresh s hidle
  have hfail : (run s [.closeClick, .closeResume 0 (.resolved ()),
        .closeResume 0 (.rejected err)]).1.isClosing = false ∧
      (run s [.closeClick, .closeResume 0 (.resolved ()),
        .closeResume 0 (.rejected err)]).1.closing = [] ∧
      (run s [.closeClick, .closeResume 0 (.resolved ()),
        .closeResume 0 (.rejected err)]).1.isTauri = true := by
    simp [run, step, closeWindowResume, hf.2.1, hf.2.2.1, hnone, hmode]
  obtain ⟨h1, h2, h3⟩ := hfail
  have hr := closeWindow_fresh _ h1
  refine ⟨h1, h2, hr.1, hr.2.2.2, ?_⟩
  simp [closeWindowResume, hr.2.1, hr.2.2.1, h2, h3]

/-- C3 amended, at a concrete failure. -/
theorem closeWindow_failure_allows_retry_witness :
    (run (App.start true ⟨some "asset://localhost/movie.mp4", false⟩)
      [.closeClick, .closeResume 0 (.resolved ()),
        .closeResume 0 (.rejected "denied")]).1.isClosing = false ∧
    cleanupRuns (closeWindow (run (App.start true ⟨some "asset://localhost/movie.mp4", false⟩)
      [.closeClick, .closeResume 0 (.resolved ()),
        .closeResume 0 (.rejected "denied")]).1).2 = 1 :=
  have h := closeWindow_failure_allows_retry
    (App.start true ⟨some "asset://localhost/movie.mp4", false⟩) "denied" rfl rfl rfl
  ⟨h.1, h.2.2.2.1⟩

/-! ## Failure handling of the boundary calls -/

theorem minimizeWindow_catches (s : App) (o : Outcome Unit) :
    escapes (minimizeWindow s o).2 = false := by
  unfold minimizeWindow
  by_cases ht : s.isTauri = true <;> cases o <;> simp [ht, escapes, catchLogged]

theorem loadVideo_catches (s : App) (convert : Outcome String) (blobUrl : String)
    (play : Outcome Unit) : escapes (loadVideo s convert blobUrl play).2 = false := by
  unfold loadVideo
  by_cases ht : s.isTauri = true <;> cases convert <;> cases hv : s.video <;> cases play <;>
    simp [ht, escapes]

theorem toggleMaximize_fallback_catches (s : App) (q : Outcome Bool) (a b c d : Outcome Unit)
    (fs : Bool) (hmode : s.isTauri = false) :
    escapes (toggleMaximize s q a b fs c d) = false := by
  unfold toggleMaximize
  cases fs <;> cases c <;> cases d <;> simp [hmode, escapes, catchLogged]

/-- C4: the rejections of `maximize()` and `unmaximize()` in `toggleMaximize`
and of `close()` in the close-requested listener are not caught: in native
mode, for every error, the rejection leaves the operation unhandled and
nothing is logged for it (likewise for `play()` started by the play button),
while the sibling calls (`isMaximized`, `minimize`, the fullscreen requests,
`loadVideo`) are caught and logged. -/
theorem boundary_rejections_escape (s : App) (v : Video) (err : String) :
    toggleMaximize { s with isTauri := true } (.resolved false) (.rejected err) (.resolved ())
        false (.resolved ()) (.resolved ()) =
      [.shellIsMaximized, .shellMaximize, .unhandledRejection err] ∧
    toggleMaximize { s with isTauri := true } (.resolved true) (.resolved ()) (.rejected err)
        false (.resolved ()) (.resolved ()) =
      [.shellIsMaximized, .shellUnmaximize, .unhandledRejection err] ∧
    escapes (onCloseRequested { s with isTauri := true } (.rejected err)).2 = true ∧
    Effect.consoleError err ∉ (onCloseRequested { s with isTauri := true } (.rejected err)).2 ∧
    onPlayClick { s with video := some v } (.rejected err) =
      [.videoPlay, .unhandledRejection err] ∧
    toggleMaximize { s with isTauri := true } (.rejected err) (.resolved ()) (.resolved ())
        false (.resolved ()) (.resolved ()) =
      [.shellIsMaximized, .consoleError ("Maximize error: " ++ err)] ∧
    (minimizeWindow { s with isTauri := true } (.rejected err)).2 =
      [.shellMinimize, .consoleError err] := by
  refine ⟨by simp [toggleMaximize, discarded], by simp [toggleMaximize, discarded], ?_, ?_,
    by simp [onPlayClick, discarded], by simp [toggleMaximize],
    by simp [minimizeWindow, catchLogged]⟩
  · simp [onCloseRequested, escapes, discarded]
  · rcases cleanupBeforeClose_effects { s with isTauri := true } with h | h <;>
      simp [onCloseRequested, discarded, h]

/-! ## Dragging

The statements of this section are about the three listeners of
`setupDragBehavior` as written: what they do with the events they handle, in
any order the event loop may deliver them (position lookups may settle in any
order and at any time after they were started).  Their registration is a
separate matter, settled in the startup section: a statement about a lookup
started by a pointer-down, or about a drag, is a statement about a run in which
these listeners handle events.
-/

theorem closeWindow_drag (s : App) :
    (closeWindow s).1.offsetX = s.offsetX ∧ (closeWindow s).1.offsetY = s.offsetY ∧
    (closeWindow s).1.lookups = s.lookups ∧ (closeWindow s).1.isTauri = s.isTauri := by
  unfold closeWindow cleanupBeforeClose
  by_cases hc : s.isClosing = true
  · simp [hc]
  · cases hv : s.video <;> simp [hc, Video.src, startsWith_empty_blob]

theorem closeWindowResume_drag (s : App) (i : Nat) (o : Outcome Unit) :
    (closeWindowResume s i o).1.offsetX = s.offsetX ∧
    (closeWindowResume s i o).1.offsetY = s.offsetY ∧
    (closeWindowResume s i o).1.lookups = s.lookups ∧
    (closeWindowResume s i o).1.isTauri = s.isTauri := by
  unfold closeWindowResume
  cases hi : s.closing[i]? with
  | none => simp
  | some pc =>
    cases pc with
    | awaitCleanup => by_cases ht : s.isTauri = true <;> simp [ht]
    | awaitShellClose => cases o <;> simp

theorem step_isTauri (s : App) (ev : Event) : (step s ev).1.isTauri = s.isTauri := by
  cases ev with
  | closeClick => exact (closeWindow_drag s).2.2.2
  | closeResume i o => exact (closeWindowResume_drag s i o).2.2.2
  | mouseDown e =>
    simp only [step, onMouseDown]
    by_cases hb : e.button = 0 <;> by_cases ht : s.isTauri = true <;> simp [hb, ht]
  | mouseMove e c o =>
    simp only [step, onMouseMove]
    by_cases hd : s.isDragging = true <;> by_cases ht : (s.isTauri && c) = true <;>
      simp [hd, ht]
  | mouseUp =>
    simp only [step, onMouseUp]
    by_cases hd : s.isDragging = true <;> by_cases ht : s.isTauri = true <;> simp [hd, ht]
  | positionSettled i o =>
    simp only [step, onPositionSettled]
    cases hi : s.lookups[i]? with
    | none => simp
    | some pt => cases pt <;> cases o <;> simp

theorem step_offset (s : App) (ev : Event) (hmode : s.isTauri = true)
    (hev : ev.resolves = false) :
    (step s ev).1.offsetX = s.offsetX ∧ (step s ev).1.offsetY = s.offsetY := by
  cases ev with
  | closeClick => exact ⟨(closeWindow_drag s).1, (closeWindow_drag s).2.1⟩
  | closeResume i o =>
    exact ⟨(closeWindowResume_drag s i o).1, (closeWindowResume_drag s i o).2.1⟩
  | mouseDown e =>
    simp only [step, onMouseDown]
    by_cases hb : e.button = 0 <;> simp [hb, hmode]
  | mouseMove e c o =>
    simp only [step, onMouseMove]
    by_cases hd : s.isDragging = true <;> by_cases ht : (s.isTauri && c) = true <;>
      simp [hd, ht]
  | mouseUp =>
    simp only [step, onMouseUp]
    by_cases hd : s.isDragging = true <;> simp [hd, hmode]
  | positionSettled i o =>
    cases o with
    | resolved w => simp [Event.resolves] at hev
    | rejected err =>
      simp only [step, onPositionSettled]
      cases hi : s.lookups[i]? with
      | none => simp
      | some pt => cases pt <;> simp

theorem step_pending (s : App) (ev : Event) (n : Nat) (p : Point)
    (hp : s.lookups[n]? = some (some p)) (hev : ev.settles n = false) :
    (step s ev).1.lookups[n]? = some (some p) := by
  cases ev with
  | closeClick => simpa [step, (closeWindow_drag s).2.2.1] using hp
  | closeResume i o => simpa [step, (closeWindowResume_drag s i o).2.2.1] using hp
  | mouseDown e =>
    have hn : n < s.lookups.length := by
      by_contra hge
      rw [List.getElem?_eq_none (by omega)] at hp
      exact absurd hp (by simp)
    simp only [step, onMouseDown]
    by_cases hb : e.button = 0 <;> by_cases ht : s.isTauri = true <;>
      simp [hb, ht, hp, List.getElem?_append_left hn]
  | mouseMove e c o =>
    simp only [step, onMouseMove]
    by_cases hd : s.isDragging = true <;> by_cases ht : (s.isTauri && c) = true <;>
      simp [hd, ht, hp]
  | mouseUp =>
    simp only [step, onMouseUp]
    by_cases hd : s.isDragging = true <;> by_cases ht : s.isTauri = true <;> simp [hd, ht, hp]
  | positionSettled i o =>
    have hne : i ≠ n := by simpa [Event.settles] using hev
    simp only [step, onPositionSettled]
    cases hi : s.lookups[i]? with
    | none => simpa using hp
    | some pt =>
      cases pt with
      | none => simpa using hp
      | some q => cases o <;> simp [List.getElem?_set_ne hne, hp]

theorem run_isTauri (s : App) (evs : List Event) : (run s evs).1.isTauri = s.isTauri := by
  induction evs generalizing s with
  | nil => rfl
  | cons ev evs ih => simp [run, ih, step_isTauri]

theorem run_offset (s : App) (evs : List Event) (hmode : s.isTauri = true)
    (hevs : ∀ ev ∈ evs, ev.resolves = false) :
    (run s evs).1.offsetX = s.offsetX ∧ (run s evs).1.offsetY = s.offsetY := by
  induction evs generalizing s with
  | nil => exact ⟨rfl, rfl⟩
  | cons ev evs ih =>
    have h1 := step_offset s ev hmode (hevs ev (List.mem_cons_self _ _))
    have h2 := ih (step s ev).1 (by rw [step_isTauri]; exact hmode)
      (fun x hx => hevs x (List.mem_cons_of_mem _ hx))
    exact ⟨by simpa [run, h1.1] using h2.1, by simpa [run, h1.2] using h2.2⟩

theorem run_pending (s : App) (evs : List Event) (n : Nat) (p : Point)
    (hp : s.lookups[n]? = some (some p)) (hevs : ∀ ev ∈ evs, ev.settles n = false) :
    (run s evs).1.lookups[n]? = some (some p) := by
  induction evs generalizing s with
  | nil => exact hp
  | cons ev evs ih =>
    have h1 := step_pending s ev n p hp (hevs ev (List.mem_cons_self _ _))
    simpa [run] using ih (step s ev).1 h1 (fun x hx => hevs x (List.mem_cons_of_mem _ hx))

theorem onMouseDown_native (s : App) (e : MouseEvent) (hmode : s.isTauri = true)
    (hbtn : e.button = 0) :
    (onMouseDown s e).1.isTauri = true ∧ (onMouseDown s e).1.offsetX = s.offsetX ∧
    (onMouseDown s e).1.offsetY = s.offsetY ∧
    (onMouseDown s e).1.lookups[s.lookups.length]? = some (some ⟨e.screenX, e.screenY⟩) := by
  simp [onMouseDown, hmode, hbtn]

theorem onMouseMove_native (s : App) (m : MouseEvent) (o : Outcome Unit)
    (hmode : s.isTauri = true) (hdrag : s.isDragging = true) :
    onMouseMove s m true o =
      (s, [.shellSetPosition (m.screenX - s.offsetX) (m.screenY - s.offsetY)] ++
        catchLogged o) := by
  simp [onMouseMove, hmode, hdrag]

theorem settleAfter_pending (s : App) (e : MouseEvent) (mid : List Event)
    (hmode : s.isTauri = true) (hbtn : e.button = 0)
    (hmid : ∀ ev ∈ mid, ev.settles s.lookups.length = false) :
    (run (onMouseDown s e).1 mid).1.lookups[s.lookups.length]? =
      some (some ⟨e.screenX, e.screenY⟩) ∧
    (run (onMouseDown s e).1 mid).1.isTauri = true :=
  ⟨run_pending _ mid _ _ (onMouseDown_native s e hmode hbtn).2.2.2 hmid,
   by rw [run_isTauri]; exact (onMouseDown_native s e hmode hbtn).1⟩

theorem run_moves_idle (s : App) (moves : List (MouseEvent × Bool × Outcome Unit))
    (hidle : s.isDragging = false) :
    run s (moves.map fun m => Event.mouseMove m.1 m.2.1 m.2.2) = (s, []) := by
  induction moves with
  | nil => simp [run]
  | cons m ms ih => simp [run, step, onMouseMove, hidle, ih]

/-- C5, as stated, fails on the drag listeners in two ways.  The offset is a
pair of shared variables that every resolving lookup writes: the pointer-down
at (200,210) has its lookup resolve to (7,9), which stores (193,201), then the
lookup of the earlier pointer-down at (100,100) resolves to (50,60) and
overwrites it, so the move to (300,300) of the active drag requests (250,260)
and not (107,99).  And a move handled while the bridge's `setPosition` is not
available issues no request at all and applies a transform instead. -/
theorem drag_stale_lookup_overwrites_offset :
    (run (App.start true ⟨none, true⟩)
      [.mouseDown ⟨0, 100, 100, 100, 100⟩, .mouseUp, .mouseDown ⟨0, 200, 210, 200, 210⟩,
       .positionSettled 1 (.resolved ⟨7, 9⟩)]).1.offsetX = 193 ∧
    (run (App.start true ⟨none, true⟩)
      [.mouseDown ⟨0, 100, 100, 100, 100⟩, .mouseUp, .mouseDown ⟨0, 200, 210, 200, 210⟩,
       .positionSettled 1 (.resolved ⟨7, 9⟩)]).1.offsetY = 201 ∧
    (run (App.start true ⟨none, true⟩)
      [.mouseDown ⟨0, 100, 100, 100, 100⟩, .mouseUp, .mouseDown ⟨0, 200, 210, 200, 210⟩,
       .positionSettled 1 (.resolved ⟨7, 9⟩),
       .positionSettled 0 (.resolved ⟨50, 60⟩)]).1.isDragging = true ∧
    (run (App.start true ⟨none, true⟩)
      [.mouseDown ⟨0, 100, 100, 100, 100⟩, .mouseUp, .mouseDown ⟨0, 200, 210, 200, 210⟩,
       .positionSettled 1 (.resolved ⟨7, 9⟩), .positionSettled 0 (.resolved ⟨50, 60⟩),
       .mouseMove ⟨0, 300, 300, 300, 300⟩ true (.resolved ())]).2 =
      [.shellPosition, .shellPosition, .shellSetPosition 250 260] ∧
    Effect.shellSetPosition 107 99 ∉
      (run (App.start true ⟨none, true⟩)
        [.mouseDown ⟨0, 100, 100, 100, 100⟩, .mouseUp, .mouseDown ⟨0, 200, 210, 200, 210⟩,
         .positionSettled 1 (.resolved ⟨7, 9⟩), .positionSettled 0 (.resolved ⟨50, 60⟩),
         .mouseMove ⟨0, 300, 300, 300, 300⟩ true (.resolved ())]).2 ∧
    (run (App.start true ⟨none, true⟩)
      [.mouseDown ⟨0, 100, 100, 100, 100⟩, .positionSettled 0 (.resolved ⟨50, 50⟩),
       .mouseMove ⟨0, 130, 120, 130, 120⟩ false (.resolved ())]).2 = [.shellPosition] ∧
    (run (App.start true ⟨none, true⟩)
      [.mouseDown ⟨0, 100, 100, 100, 100⟩, .positionSettled 0 (.resolved ⟨50, 50⟩),
       .mouseMove ⟨0, 130, 120, 130, 120⟩ false (.resolved ())]).1.body.transform =
      .translate 30 20 := by
  decide

/-- C5 amended, for the drag listeners of `setupDragBehavior` as they handle
the events delivered to them, in native mode and from any prior state.  A
primary-button pointer-down at screen position `(e.screenX, e.screenY)` starts
a lookup; whatever is handled before that lookup settles (`mid`), when it
resolves to `w` the offset it stores is `(e.screenX - w.x, e.screenY - w.y)`
and nothing is logged.  Whatever is handled afterwards (`post`), as long as no
other position lookup resolves, every pointer-move handled while the drag is
active and the bridge's `setPosition` is available issues exactly one
position-set request, for
`(m.screenX - (e.screenX - w.x), m.screenY - (e.screenY - w.y))`, followed by
a logged error if that request is rejected. -/
theorem drag_native_offset_until_overwritten (s : App) (e : MouseEvent) (w : Point)
    (mid post : List Event) (m : MouseEvent) (o : Outcome Unit)
    (hmode : s.isTauri = true) (hbtn : e.button = 0)
    (hmid : ∀ ev ∈ mid, ev.settles s.lookups.length = false)
    (hpost : ∀ ev ∈ post, ev.resolves = false)
    (hdrag : (run (settleAfter s e mid (.resolved w)).1 post).1.isDragging = true) :
    (settleAfter s e mid (.resolved w)).2 = [] ∧
    (settleAfter s e mid (.resolved w)).1.offsetX = e.screenX - w.x ∧
    (settleAfter s e mid (.resolved w)).1.offsetY = e.screenY - w.y ∧
    step (run (settleAfter s e mid (.resolved w)).1 post).1 (.mouseMove m true o) =
      ((run (settleAfter s e mid (.resolved w)).1 post).1,
        [.shellSetPosition (m.screenX - (e.screenX - w.x)) (m.screenY - (e.screenY - w.y))] ++
          catchLogged o) := by
  obtain ⟨hpend, htauri⟩ := settleAfter_pending s e mid hmode hbtn hmid
  have hr : settleAfter s e mid (.resolved w) =
      ({ (run (onMouseDown s e).1 mid).1 with
          lookups := (run (onMouseDown s e).1 mid).1.lookups.set s.lookups.length none
          offsetX := e.screenX - w.x
          offsetY := e.screenY - w.y }, []) := by
    simp [settleAfter, onPositionSettled, hpend]
  have hrt : (settleAfter s e mid (.resolved w)).1.isTauri = true := by rw [hr]; exact htauri
  have hoff := run_offset (settleAfter s e mid (.resolved w)).1 post hrt hpost
  have hx : (settleAfter s e mid (.resolved w)).1.offsetX = e.screenX - w.x := by rw [hr]
  have hy : (settleAfter s e mid (.resolved w)).1.offsetY = e.screenY - w.y := by rw [hr]
  refine ⟨by rw [hr], hx, hy, ?_⟩
  have hmove := onMouseMove_native (run (settleAfter s e mid (.resolved w)).1 post).1 m o
    (by rw [run_isTauri]; exact hrt) hdrag
  rw [hoff.1, hoff.2, hx, hy] at hmove
  exact hmove

/-- C5 amended, at the scenario of the specification: down at (100,100) with
window origin (50,50) stores the offset (50,50), and after another move whose
request was rejected a move to (130,120) requests (80,70). -/
theorem drag_native_offset_until_overwritten_witness :
    (settleAfter (App.start true ⟨none, true⟩) ⟨0, 100, 100, 100, 100⟩ [] (.resolved ⟨50, 50⟩)).1.offsetX
      = 100 - 50 ∧
    (settleAfter (App.start true ⟨none, true⟩) ⟨0, 100, 100, 100, 100⟩ [] (.resolved ⟨50, 50⟩)).1.offsetY
      = 100 - 50 ∧
    (step (run (settleAfter (App.start true ⟨none, true⟩) ⟨0, 100, 100, 100, 100⟩ []
          (.resolved ⟨50, 50⟩)).1
        [.mouseMove ⟨0, 110, 105, 110, 105⟩ true (.rejected "busy")]).1
      (.mouseMove ⟨0, 130, 120, 130, 120⟩ true (.resolved ()))).2 =
      [.shellSetPosition (130 - (100 - 50)) (120 - (100 - 50))] ++ catchLogged (.resolved ()) :=
  have h := drag_native_offset_until_overwritten (App.start true ⟨none, true⟩)
    ⟨0, 100, 100, 100, 100⟩ ⟨50, 50⟩ []
    [.mouseMove ⟨0, 110, 105, 110, 105⟩ true (.rejected "busy")]
    ⟨0, 130, 120, 130, 120⟩ (.resolved ()) rfl rfl (by decide) (by decide) (by decide)
  ⟨h.2.1, h.2.2.1, congrArg Prod.snd h.2.2.2⟩

/-- C7, as stated, fails on the drag listeners.  The claim ranges over histories
with earlier drags whose lookup succeeded; on such a history (a drag whose
lookup resolved and left the offset (50,50)), a drag whose lookup is rejected
keeps the offset (50,50), not (0,0), stays active, and its pointer-move to
(30,30) still issues a position-set request, for (-20,-20).  And on a first
drag, whose failed lookup does leave (0,0), the move is still followed: it
requests (30,30). -/
theorem drag_failed_lookup_keeps_stale_offset :
    (run (App.start true ⟨none, true⟩)
      [.mouseDown ⟨0, 100, 100, 100, 100⟩, .positionSettled 0 (.resolved ⟨50, 50⟩), .mouseUp,
       .mouseDown ⟨0, 10, 10, 10, 10⟩, .positionSettled 1 (.rejected "lookup failed")]).1.offsetX
        = 50 ∧
    (run (App.start true ⟨none, true⟩)
      [.mouseDown ⟨0, 100, 100, 100, 100⟩, .positionSettled 0 (.resolved ⟨50, 50⟩), .mouseUp,
       .mouseDown ⟨0, 10, 10, 10, 10⟩, .positionSettled 1 (.rejected "lookup failed")]).1.offsetY
        = 50 ∧
    (run (App.start true ⟨none, true⟩)
      [.mouseDown ⟨0, 100, 100, 100, 100⟩, .positionSettled 0 (.resolved ⟨50, 50⟩), .mouseUp,
       .mouseDown ⟨0, 10, 10, 10, 10⟩, .positionSettled 1 (.rejected "lookup failed"),
       .mouseMove ⟨0, 30, 30, 30, 30⟩ true (.resolved ())]).2 =
      [.shellPosition, .shellPosition, .consoleError "lookup failed",
       .shellSetPosition (-20) (-20)] ∧
    (run (App.start true ⟨none, true⟩)
      [.mouseDown ⟨0, 10, 10, 10, 10⟩, .positionSettled 0 (.rejected "lookup failed"),
       .mouseMove ⟨0, 30, 30, 30, 30⟩ true (.resolved ())]).2 =
      [.shellPosition, .consoleError "lookup failed", .shellSetPosition 30 30] := by
  decide

/-- C7 amended, for the drag listeners of `setupDragBehavior` as they handle
the events delivered to them, in native mode and from any prior state.  When
the lookup started by a primary-button pointer-down is rejected, whatever was
handled since the pointer-down (`mid`), the rejection is logged and changes
nothing else: the state is the one just before the rejection, with that
lookup marked as settled, so the offset, the active flag and the start position
keep the values they had.  The offset is not reset: if no
position lookup resolved in between it is the offset held before the
pointer-down.  And whatever is handled afterwards (`post`), if no position
lookup resolves at all, every pointer-move handled while the drag is active
and the bridge's `setPosition` is available still issues one position-set
request, computed from that offset, followed by a logged error if the request
is rejected. -/
theorem drag_failed_lookup_changes_nothing (s : App) (e : MouseEvent) (err : String)
    (mid post : List Event) (m : MouseEvent) (o : Outcome Unit)
    (hmode : s.isTauri = true) (hbtn : e.button = 0)
    (hmid : ∀ ev ∈ mid, ev.settles s.lookups.length = false) :
    (settleAfter s e mid (.rejected err)).2 = [.consoleError err] ∧
    (settleAfter s e mid (.rejected err)).1 =
      { (run (onMouseDown s e).1 mid).1 with
          lookups := (run (onMouseDown s e).1 mid).1.lookups.set s.lookups.length none } ∧
    ((∀ ev ∈ mid, ev.resolves = false) →
      (settleAfter s e mid (.rejected err)).1.offsetX = s.offsetX ∧
      (settleAfter s e mid (.rejected err)).1.offsetY = s.offsetY) ∧
    ((∀ ev ∈ mid, ev.resolves = false) → (∀ ev ∈ post, ev.resolves = false) →
      (run (settleAfter s e mid (.rejected err)).1 post).1.isDragging = true →
      step (run (settleAfter s e mid (.rejected err)).1 post).1 (.mouseMove m true o) =
        ((run (settleAfter s e mid (.rejected err)).1 post).1,
          [.shellSetPosition (m.screenX - s.offsetX) (m.screenY - s.offsetY)] ++
            catchLogged o)) := by
  obtain ⟨hpend, htauri⟩ := settleAfter_pending s e mid hmode hbtn hmid
  have hdown := onMouseDown_native s e hmode hbtn
  have hr : settleAfter s e mid (.rejected err) =
      ({ (run (onMouseDown s e).1 mid).1 with
          lookups := (run (onMouseDown s e).1 mid).1.lookups.set s.lookups.length none },
        [.consoleError err]) := by
    simp [settleAfter, onPositionSettled, hpend]
  have hrt : (settleAfter s e mid (.rejected err)).1.isTauri = true := by rw [hr]; exact htauri
  have hkeep : (∀ ev ∈ mid, ev.resolves = false) →
      (settleAfter s e mid (.rejected err)).1.offsetX = s.offsetX ∧
      (settleAfter s e mid (.rejected err)).1.offsetY = s.offsetY := by
    intro hq
    have hoff := run_offset (onMouseDown s e).1 mid hdown.1 hq
    rw [hr]
    exact ⟨by simpa [hdown.2.1] using hoff.1, by simpa [hdown.2.2.1] using hoff.2⟩
  refine ⟨by rw [hr], by rw [hr], hkeep, ?_⟩
  intro hq hpost hdrag
  have hoff := run_offset (settleAfter s e mid (.rejected err)).1 post hrt hpost
  have hmove := onMouseMove_native (run (settleAfter s e mid (.rejected err)).1 post).1 m o
    (by rw [run_isTauri]; exact hrt) hdrag
  rw [hoff.1, hoff.2, (hkeep hq).1, (hkeep hq).2] at hmove
  exact hmove

/-- C7 amended, at a drag that follows one with offset (50,50): its lookup is
rejected after a first move, the offset is still (50,50), and the next move,
to (30,30), requests (-20,-20). -/
theorem drag_failed_lookup_changes_nothing_witness :
    (settleAfter { App.start true ⟨none, true⟩ with offsetX := 50, offsetY := 50 }
      ⟨0, 10, 10, 10, 10⟩ [.mouseMove ⟨0, 20, 20, 20, 20⟩ true (.resolved ())]
      (.rejected "lookup failed")).2 = [.consoleError "lookup failed"] ∧
    (settleAfter { App.start true ⟨none, true⟩ with offsetX := 50, offsetY := 50 }
      ⟨0, 10, 10, 10, 10⟩ [.mouseMove ⟨0, 20, 20, 20, 20⟩ true (.resolved ())]
      (.rejected "lookup failed")).1.offsetX = 50 ∧
    (step (run (settleAfter { App.start true ⟨none, true⟩ with offsetX := 50, offsetY := 50 }
        ⟨0, 10, 10, 10, 10⟩ [.mouseMove ⟨0, 20, 20, 20, 20⟩ true (.resolved ())]
        (.rejected "lookup failed")).1 []).1
      (.mouseMove ⟨0, 30, 30, 30, 30⟩ true (.resolved ()))).2 =
      [.shellSetPosition (30 - 50) (30 - 50)] ++ catchLogged (.resolved ()) :=
  have h := drag_failed_lookup_changes_nothing
    { App.start true ⟨none, true⟩ with offsetX := 50, offsetY := 50 }
    ⟨0, 10, 10, 10, 10⟩ "lookup failed" [.mouseMove ⟨0, 20, 20, 20, 20⟩ true (.resolved ())] []
    ⟨0, 30, 30, 30, 30⟩ (.resolved ()) rfl rfl (by decide)
  ⟨h.1, (h.2.2.1 (by decide)).1,
    congrArg Prod.snd (h.2.2.2 (by decide) (by decide) (by decide))⟩

/-- C9: a pointer-down whose button is not the primary one, received while no
drag is active, leaves the whole state unchanged (drag inactive, offset and
start position as they were) and has no effect, in both modes; every
pointer-move that follows, whatever the availability of the bridge and the
outcome a request would have, issues no position-set request and applies no
transform. -/
theorem nonprimary_down_starts_no_drag (s : App) (e : MouseEvent)
    (moves : List (MouseEvent × Bool × Outcome Unit)) (hbtn : e.button ≠ 0)
    (hidle : s.isDragging = false) :
    onMouseDown s e = (s, []) ∧
    run s (Event.mouseDown e :: moves.map fun m => Event.mouseMove m.1 m.2.1 m.2.2) =
      (s, []) := by
  have hd : onMouseDown s e = (s, []) := by simp [onMouseDown, hbtn]
  refine ⟨hd, ?_⟩
  simp [run, step, hd, run_moves_idle s moves hidle]

/-- C9 at a right-button press followed by two moves, in native mode. -/
theorem nonprimary_down_starts_no_drag_witness :
    run (App.start true ⟨none, true⟩)
      [.mouseDown ⟨2, 100, 100, 100, 100⟩,
       .mouseMove ⟨2, 130, 120, 130, 120⟩ true (.resolved ()),
       .mouseMove ⟨2, 140, 125, 140, 125⟩ false (.rejected "busy")] =
      (App.start true ⟨none, true⟩, []) :=
  (nonprimary_down_starts_no_drag (App.start true ⟨none, true⟩) ⟨2, 100, 100, 100, 100⟩
    [(⟨2, 130, 120, 130, 120⟩, true, .resolved ()), (⟨2, 140, 125, 140, 125⟩, false, .rejected "busy")]
    (by decide) rfl).2

/-! ## File drop -/

theorem onDrop_video_loads :
    (onDrop (App.start false ⟨none, true⟩) [⟨"video/mp4"⟩, ⟨"text/plain"⟩] (.resolved "")
        "blob:http://localhost/3f1c" (.resolved ())).1.video =
      some ⟨some "blob:http://localhost/3f1c", false⟩ := by
  decide

/-- C8: when the content type of the first dropped file does not start with
`video/`, the drop handlers do not call `loadVideo`, leave the video element
(its source included) unchanged, and only prevent the default, clear the
outline and log; the result does not depend on the remaining files. -/
theorem drop_nonvideo_leaves_source (s : App) (file : DroppedFile) (rest : List DroppedFile)
    (convert : Outcome String) (blobUrl : String) (play : Outcome Unit)
    (hty : startsWith file.type "video/" = false) :
    (onDrop s (file :: rest) convert blobUrl play).1.video = s.video ∧
    Effect.enterLoadVideo ∉ (onDrop s (file :: rest) convert blobUrl play).2 ∧
    (onDrop s (file :: rest) convert blobUrl play).2 =
      [.preventDefault, .consoleLog "Dropped file is not a video"] ∧
    onDrop s (file :: rest) convert blobUrl play = onDrop s [file] convert blobUrl play := by
  simp [onDrop, hty]

/-- C8 at a text file dropped together with a video file, the text file
first. -/
theorem drop_nonvideo_leaves_source_witness :
    (onDrop (App.start false ⟨some "blob:http://localhost/3f1c", false⟩)
        [⟨"text/plain"⟩, ⟨"video/mp4"⟩] (.resolved "") "blob:http://localhost/77aa"
        (.resolved ())).1.video = some ⟨some "blob:http://localhost/3f1c", false⟩ :=
  (drop_nonvideo_leaves_source (App.start false ⟨some "blob:http://localhost/3f1c", false⟩)
    ⟨"text/plain"⟩ [⟨"video/mp4"⟩] (.resolved "") "blob:http://localhost/77aa" (.resolved ())
    (by decide)).1

/-! ## Startup -/

theorem setupDragBehavior_element (id : String) :
    setupDragBehavior (.element id) = .ok ["mousedown", "mousemove", "mouseup"] := by
  simp [setupDragBehavior, JSValue.truthy, JSValue.get]

theorem setupDragBehavior_collection (ids : List String) :
    ∃ err, setupDragBehavior (.collection ids) = .error err := by
  by_cases h1 : "style" ∈ ids <;> by_cases h2 : "addEventListener" ∈ ids <;>
    simp [setupDragBehavior, JSValue.truthy, JSValue.get, h1, h2]

/-- C10: with the video element present, for every set of `controls` elements,
either detection outcome and either availability of `listen`, the startup
handler ends with an exception raised by `setupDragBehavior` (the handle is
the collection returned by `getElementsByClassName`, which has neither a
`style` object nor an `addEventListener` method): only the first two setup
steps complete, no pointer listener and no drop listener is registered. -/
theorem startup_stops_in_setupDragBehavior (controls : List String) (detected listen : Bool) :
    (onDOMContentLoaded ⟨true, controls⟩ detected listen).raised ≠ none ∧
    (onDOMContentLoaded ⟨true, controls⟩ detected listen).completed =
      ["addOpenFileButton", "setupWindowControls"] ∧
    "mousedown" ∉ (onDOMContentLoaded ⟨true, controls⟩ detected listen).listeners ∧
    "drop" ∉ (onDOMContentLoaded ⟨true, controls⟩ detected listen).listeners := by
  obtain ⟨err, herr⟩ := setupDragBehavior_collection controls
  cases detected <;> cases listen <;>
    simp [onDOMContentLoaded, Document.getElementsByClassName, JSValue.truthy, herr,
      setupWindowControls]

end VideoPlayer
